import Mathlib

/-!
Shallow embedding of the `sciserver/nist_ai` media-ingestion pipeline.

The embedding covers, traced from the Python sources:
* `src/audio_processing.py` — word-token normalization of `transcribe_audio_whisper`;
* `src/job_config.py` — `WhisperConfig.__post_init__` and the plain
  `EndToEndConfig` dataclass;
* `src/gps_processing.py` — `parse_trackaddict_gps` and `parse_gps_file`;
* `src/src/backend/video_processing.py` — `extract_audio`;
* `src/src/backend/repository.py` — `Repository.get_video`, `Repository.get_audio`,
  `Repository.save_data`, `Repository.query_video_path_by_id`.

Python exceptions are modelled by the `PyError` type; the spec's abstract error
taxonomy (`InvalidConfigError`, `UnsupportedVariantError`, `AmbiguousQueryError`,
`NotFoundError`) is realized in the source by the concrete Python exceptions
(`ValueError`, `FileNotFoundError`, ...), so those constructors stand for both.
Filesystems and the relational store are explicit state values; machine floats
carried as opaque payload data are modelled by rationals (no float arithmetic is
performed anywhere in the embedded code paths).
-/

namespace NistAI

/-- Python exceptions that the embedded code paths can raise. -/
inductive PyError where
  | keyError
  | valueError
  | typeError
  | attributeError
  | unboundLocalError
  | fileNotFoundError
  | multipleResultsFound
  | databaseError
deriving DecidableEq, Repr

/-- A Python runtime value as it appears in the ingestion payload dictionaries:
strings, ints, floats (modelled as rationals: the pipeline only stores them),
and raw bytes (thumbnails). -/
inductive Val where
  | s (str : String)
  | i (int : Int)
  | r (rat : Rat)
  | b (bytes : List Nat)
deriving DecidableEq, Repr

/-- Python truthiness of a `Val` (`bool(v)`). -/
def Val.truthy : Val → Bool
  | .s str => decide (str ≠ "")
  | .i int => decide (int ≠ 0)
  | .r rat => decide (rat ≠ 0)
  | .b bytes => decide (bytes ≠ [])

/-- A Python `dict[str, Any]`, as an association list (insertion order kept). -/
abbrev PyDict := List (String × Val)

/-- `d[k]`: dictionary subscript, raising `KeyError` when the key is absent. -/
def PyDict.getItem (d : PyDict) (k : String) : Except PyError Val :=
  match d.lookup k with
  | some v => .ok v
  | none => .error .keyError

/-- Truthiness of an optional value (`None` is falsy). -/
def optTruthy : Option Val → Bool
  | none => false
  | some v => v.truthy

instance {ε α : Type} [DecidableEq ε] [DecidableEq α] :
    DecidableEq (Except ε α) := fun a b =>
  match a, b with
  | .error x, .error y =>
    decidable_of_iff (x = y) ⟨fun h => h ▸ rfl, Except.error.inj⟩
  | .ok x, .ok y =>
    decidable_of_iff (x = y) ⟨fun h => h ▸ rfl, Except.ok.inj⟩
  | .error _, .ok _ => .isFalse Except.noConfusion
  | .ok _, .error _ => .isFalse Except.noConfusion

/-! ### Word-token normalization (`src/audio_processing.py`, lines 107–126)

The source builds `remove_punc_table = str.maketrans("", "", remove_punc +
string.whitespace)` where `remove_punc = string.punctuation.replace("'", "")`,
and applies `word.translate(remove_punc_table)`: a single pass deleting every
character of the table, interior ones included. -/

/-- Python's `string.punctuation` constant. -/
def string_punctuation : List Char :=
  ['!', '\"', '#', '$', '%', '&', '\'', '(', ')', '*', '+', ',', '-', '.', '/',
   ':', ';', '<', '=', '>', '?', '@', '[', '\\', ']', '^', '_', '\x60',
   '\x7b', '|', '\x7d', '~']

/-- Python's `string.whitespace` constant. -/
def string_whitespace : List Char := [' ', '\t', '\n', '\r', '\x0b', '\x0c']

/-- `keep_punc = "'"` from the source. -/
def keep_punc : String := String.mk ['\'']

/-- `remove_punc = string.punctuation.replace(keep_punc, "")`. -/
def remove_punc : List Char :=
  string_punctuation.filter (fun c => !(keep_punc.data.contains c))

/-- The deletion set of `str.maketrans("", "", remove_punc + string.whitespace)`. -/
def remove_punc_table : List Char := remove_punc ++ string_whitespace

/-- `s.translate(table)` for a pure-deletion table: one pass dropping every
character in the deletion set, wherever it occurs. -/
def str_translate (s : String) (dels : List Char) : String :=
  String.mk (s.data.filter (fun c => !(dels.contains c)))

/-- The normalization applied to each word token by `transcribe_audio_whisper`:
`word.translate(remove_punc_table)`. -/
def normalize_word (w : String) : String := str_translate w remove_punc_table

/-! ### Transcription configuration (`src/job_config.py`, lines 29–65) -/

/-- A directory-level filesystem state for `os.path.exists` / `os.makedirs`. -/
structure DirFS where
  dirs : List String
deriving DecidableEq, Repr

/-- `os.path.exists(p)` over the directory filesystem. -/
def DirFS.pathExists (fs : DirFS) (p : String) : Bool := fs.dirs.contains p

/-- `os.makedirs(p, exist_ok=True)`. -/
def DirFS.makedirs (fs : DirFS) (p : String) : DirFS := ⟨fs.dirs ++ [p]⟩

/-- `WhisperConfig.valid_model_names`. -/
def valid_model_names : List String :=
  ["tiny", "tiny.en", "base", "base.en", "small", "small.en",
   "medium", "medium.en", "large"]

/-- The init-visible fields of the `WhisperConfig` dataclass. -/
structure WhisperConfig where
  model_name : String
  download_location : String
  transcribe_kwargs : PyDict
deriving DecidableEq, Repr

/-- `WhisperConfig.__post_init__`, run by the dataclass machinery at
construction: FIRST `os.makedirs(download_location)` when the path does not
exist, THEN validate `model_name` against `valid_model_names`, raising
`ValueError` (the spec's `InvalidConfigError`) on an unknown name.  Returns the
filesystem after the call together with the raised exception, if any. -/
def whisperConfig_post_init (fs : DirFS) (cfg : WhisperConfig) :
    DirFS × Option PyError :=
  let fs1 := if fs.pathExists cfg.download_location then fs
             else fs.makedirs cfg.download_location
  if valid_model_names.contains cfg.model_name then (fs1, none)
  else (fs1, some .valueError)

/-- `VideoType = Enum("VideoType", ["GOPRO", "TRACK_ADDICT"])`. -/
inductive VideoType where
  | GOPRO
  | TRACK_ADDICT
deriving DecidableEq, Repr

/-- The `EndToEndConfig` dataclass fields. -/
structure EndToEndConfig where
  transcription_config : Option WhisperConfig
  source_video_type : VideoType
  thumbnail_width : Int
deriving DecidableEq, Repr

/-- Construction of `EndToEndConfig`: a plain dataclass with no
`__post_init__`, so no field validation runs and construction never raises. -/
def mkEndToEndConfig (tc : Option WhisperConfig) (svt : VideoType) (tw : Int) :
    EndToEndConfig × Option PyError :=
  (⟨tc, svt, tw⟩, none)

/-! ### GPS normalization (`src/gps_processing.py`) -/

/-- A parsed CSV data set: the header row and the (already numeric) data
rows, cell values in header order. -/
structure Csv where
  header : List String
  rows : List (List Rat)
deriving DecidableEq, Repr

/-- Filesystem view for the GPS parser: path → CSV content. -/
structure CsvFS where
  files : List (String × Csv)
deriving DecidableEq

/-- A pandas column dtype as requested by the `dtype=` argument. -/
inductive Dtype where
  | float64
  | float32
deriving DecidableEq, Repr

/-- One column of the resulting DataFrame. -/
structure Column where
  name : String
  dtype : Dtype
  values : List Rat
deriving DecidableEq, Repr

/-- A pandas DataFrame, as its ordered list of columns. -/
structure DataFrame where
  cols : List Column
deriving DecidableEq, Repr

/-- The `usecols=` list passed to `pd.read_csv` by `parse_trackaddict_gps`. -/
def trackaddict_usecols : List String :=
  ["Time", "UTC Time", "Latitude", "Longitude", "Altitude (m)", "Speed (Km/h)"]

/-- The `dtype=` mapping passed to `pd.read_csv` by `parse_trackaddict_gps`. -/
def trackaddict_dtypes : List (String × Dtype) :=
  [("Time", .float64), ("UTC Time", .float64), ("Latitude", .float64),
   ("Longitude", .float64), ("Altitude (m)", .float32), ("Speed (Km/h)", .float32)]

/-- The `columns=` mapping passed to `DataFrame.rename`. -/
def trackaddict_rename : List (String × String) :=
  [("Time", "relative_time"), ("UTC Time", "utc_time"),
   ("Latitude", "latitude"), ("Longitude", "longitude"),
   ("Altitude (m)", "altitude_m"), ("Speed (Km/h)", "speed_kmh")]

/-- `pd.read_csv(..., dtype=..., usecols=...)` over an in-memory CSV: keeps the
listed columns (in the CSV's own header order, as pandas does), attaching the
requested dtype to each; raises `ValueError` when a requested column is
missing from the header. -/
def read_csv_trackaddict (csv : Csv) : Except PyError DataFrame :=
  if trackaddict_usecols.all (fun c => csv.header.contains c) then
    .ok ⟨(csv.header.enum.filter (fun p => trackaddict_usecols.contains p.2)).map
      (fun p =>
        ⟨p.2, (trackaddict_dtypes.lookup p.2).getD Dtype.float64,
         csv.rows.map (fun row => row.getD p.1 0)⟩)⟩
  else .error .valueError

/-- `DataFrame.rename(columns=mapping)`: renames matching column names, leaves
dtypes and values untouched. -/
def rename_columns (df : DataFrame) (mapping : List (String × String)) :
    DataFrame :=
  ⟨df.cols.map (fun c => ⟨(mapping.lookup c.name).getD c.name, c.dtype, c.values⟩)⟩

/-- `parse_trackaddict_gps` (lines 35–103): raise `FileNotFoundError` when the
path is missing, else read the six source columns with their dtypes and rename
them to the canonical schema. -/
def parse_trackaddict_gps (fs : CsvFS) (gps_csv_path : String) :
    Except PyError DataFrame :=
  match fs.files.lookup gps_csv_path with
  | none => .error .fileNotFoundError
  | some csv =>
    match read_csv_trackaddict csv with
    | .error e => .error e
    | .ok df => .ok (rename_columns df trackaddict_rename)

/-- `parse_gps_file` (lines 106–116): dispatch on the variant tag; only
`TRACK_ADDICT` is handled, every other tag raises `ValueError` (the spec's
`UnsupportedVariantError`).  The variant check precedes any file access. -/
def parse_gps_file (fs : CsvFS) (gps_file_path : String)
    (video_type : VideoType) : Except PyError DataFrame :=
  match video_type with
  | .TRACK_ADDICT => parse_trackaddict_gps fs gps_file_path
  | _ => .error .valueError

/-! ### Audio extraction (`src/src/backend/video_processing.py`, lines 37–76) -/

/-- A file-level filesystem: path → byte contents. -/
structure FileFS where
  files : List (String × List Nat)
deriving DecidableEq, Repr

/-- `os.path.exists(p)` over the file filesystem. -/
def FileFS.pathExists (fs : FileFS) (p : String) : Bool :=
  (fs.files.lookup p).isSome

/-- Write (or overwrite) a file's contents. -/
def FileFS.write (fs : FileFS) (p : String) (bytes : List Nat) : FileFS :=
  ⟨(p, bytes) :: fs.files.filter (fun kv => kv.1 ≠ p)⟩

/-- Observable outcome of one `extract_audio` call: the filesystem afterwards,
whether the ffmpeg media tool was invoked, and the exception raised, if any. -/
structure ExtractOutcome where
  fs : FileFS
  ffmpeg_ran : Bool
  err : Option PyError
deriving DecidableEq

/-- `extract_audio(video_path, audio_path, overwrite)`: raise
`FileNotFoundError` when the video is missing; return early — without running
ffmpeg — when a file already exists at `audio_path` and `overwrite` is not set;
otherwise run ffmpeg, which writes its output (`ffmpeg_bytes`, a parameter of
the model: the tool is an external black box) to `audio_path`. -/
def extract_audio (fs : FileFS) (video_path audio_path : String)
    (overwrite : Bool) (ffmpeg_bytes : List Nat) : ExtractOutcome :=
  if !(fs.pathExists video_path) then ⟨fs, false, some .fileNotFoundError⟩
  else if fs.pathExists audio_path && !overwrite then ⟨fs, false, none⟩
  else ⟨fs.write audio_path ffmpeg_bytes, true, none⟩

/-! ### Repository (`src/src/backend/repository.py`)

The relational store is the committed row set, one list per table; the
database-assigned surrogate ids are sequential per table.  An in-flight
`save_data` call first constructs ORM objects in memory (a phase that can raise
`KeyError` on any dict access and `ValueError` / `UnboundLocalError` through
the dedup lookups), then stages everything on the session, and finally issues
one `session.commit()`.  Only the commit makes rows visible: the DBMS applies
the flush as a single transaction, so the model applies the whole built graph
in one step, or — when construction raised, or the commit itself failed — not
at all. -/

/-- A committed `video` row: its id and the attribute dict it was built from. -/
structure VideoRow where
  id : Nat
  attrs : PyDict
deriving DecidableEq, Repr

/-- A committed `audio` row, with its foreign key to `video`. -/
structure AudioRow where
  id : Nat
  video_id : Nat
  attrs : PyDict
deriving DecidableEq, Repr

/-- A committed `transcription` row, with its foreign key to `audio`. -/
structure TranscriptionRow where
  id : Nat
  audio_id : Nat
  attrs : PyDict
deriving DecidableEq, Repr

/-- A committed `text_segment` row. -/
structure TextSegmentRow where
  id : Nat
  transcription_id : Nat
  segment : Val
  start_time : Val
  end_time : Val
  no_speech_prob : Val
  thumbnail : Val
deriving DecidableEq, Repr

/-- A committed `word_segment` row. -/
structure WordSegmentRow where
  id : Nat
  text_segment_id : Nat
  word : Val
  start_time : Val
  end_time : Val
  probability : Val
deriving DecidableEq, Repr

/-- A committed `gps` row, with its foreign key to `video`. -/
structure GpsRow where
  id : Nat
  video_id : Nat
  attrs : PyDict
deriving DecidableEq, Repr

/-- The visible database state: the committed rows of the six tables. -/
structure DB where
  videos : List VideoRow
  audios : List AudioRow
  transcriptions : List TranscriptionRow
  text_segments : List TextSegmentRow
  word_segments : List WordSegmentRow
  gps : List GpsRow
deriving DecidableEq, Repr

/-- The empty store (fresh schema, no rows). -/
def emptyDB : DB := ⟨[], [], [], [], [], []⟩

/-- The `select` statement built inside `get_video` / `get_audio`: filter by
primary key or by the `checksum` column. -/
inductive RowQuery where
  | byId (v : Val)
  | byChecksum (v : Val)
deriving DecidableEq, Repr

/-- Whether a video row satisfies a `RowQuery`. -/
def videoMatches (q : RowQuery) (r : VideoRow) : Bool :=
  match q with
  | .byId v => decide (v = Val.i r.id)
  | .byChecksum v => decide (r.attrs.lookup "checksum" = some v)

/-- Whether an audio row satisfies a `RowQuery`. -/
def audioMatches (q : RowQuery) (r : AudioRow) : Bool :=
  match q with
  | .byId v => decide (v = Val.i r.id)
  | .byChecksum v => decide (r.attrs.lookup "checksum" = some v)

/-- SQLAlchemy's `.one_or_none()`: `None` for no row, the row for exactly one,
`MultipleResultsFound` otherwise. -/
def one_or_none {α : Type} (l : List α) : Except PyError (Option α) :=
  match l with
  | [] => .ok none
  | [a] => .ok (some a)
  | _ => .error .multipleResultsFound

/-- `Repository.get_video` (lines 104–133).  The guard tests `is None` on both
keyword arguments and raises `ValueError` (the spec's `AmbiguousQueryError`)
when both or neither are given; the two dispatch branches, however, test Python
TRUTHINESS (`if video_id:` / `if checksum:`), so a supplied-but-falsy selector
(id `0`, empty checksum) assigns no statement and the final use of `stmt` raises
`UnboundLocalError`. -/
def get_video (db : DB) (video_id checksum : Option Val) :
    Except PyError (Option VideoRow) :=
  let both_none := video_id.isNone && checksum.isNone
  let both_given := video_id.isSome && checksum.isSome
  if both_given || both_none then .error .valueError
  else
    let stmt : Option RowQuery := none
    let stmt := if optTruthy video_id then
                  some (RowQuery.byId (video_id.getD (Val.i 0)))
                else stmt
    let stmt := if optTruthy checksum then
                  some (RowQuery.byChecksum (checksum.getD (Val.s "")))
                else stmt
    match stmt with
    | some q => one_or_none (db.videos.filter (videoMatches q))
    | none => .error .unboundLocalError

/-- `Repository.get_audio` (lines 135–164): same shape as `get_video`, over the
`audio` table. -/
def get_audio (db : DB) (audio_id checksum : Option Val) :
    Except PyError (Option AudioRow) :=
  let both_none := audio_id.isNone && checksum.isNone
  let both_given := audio_id.isSome && checksum.isSome
  if both_given || both_none then .error .valueError
  else
    let stmt : Option RowQuery := none
    let stmt := if optTruthy audio_id then
                  some (RowQuery.byId (audio_id.getD (Val.i 0)))
                else stmt
    let stmt := if optTruthy checksum then
                  some (RowQuery.byChecksum (checksum.getD (Val.s "")))
                else stmt
    match stmt with
    | some q => one_or_none (db.audios.filter (audioMatches q))
    | none => .error .unboundLocalError

/-- One entry of `text_segments_dicts`: the scalar entries of the segment dict
plus its `"words"` entry (`none` models a dict without that key). -/
structure TSDict where
  fields : PyDict
  words? : Option (List PyDict)
deriving DecidableEq, Repr

/-- A resolved Video/Audio entity inside a `save_data` run: either a freshly
constructed ORM object pending insert, or an existing persistent row found by
the checksum lookup. -/
inductive Resolved (α : Type) where
  | created (attrs : PyDict)
  | found (row : α)
deriving DecidableEq, Repr

/-- An in-memory `WordSegment` ORM object, before commit. -/
structure BuiltWord where
  word : Val
  start_time : Val
  end_time : Val
  probability : Val
deriving DecidableEq, Repr

/-- An in-memory `TextSegment` ORM object with its attached words. -/
structure BuiltSegment where
  segment : Val
  start_time : Val
  end_time : Val
  no_speech_prob : Val
  thumbnail : Val
  words : List BuiltWord
deriving DecidableEq, Repr

/-- The full in-memory entity graph a `save_data` run stages on the session. -/
structure BuiltGraph where
  video : Resolved VideoRow
  audio : Resolved AudioRow
  transcription : PyDict
  segments : List BuiltSegment
  gps : List PyDict
deriving DecidableEq, Repr

/-- Construction of one `WordSegment(...)` ORM object from a word dict
(lines 215–222): four subscripts, each of which can raise `KeyError`. -/
def buildWord (d : PyDict) : Except PyError BuiltWord :=
  match d.getItem "word" with
  | .error e => .error e
  | .ok w =>
    match d.getItem "start" with
    | .error e => .error e
    | .ok st =>
      match d.getItem "end" with
      | .error e => .error e
      | .ok en =>
        match d.getItem "probability" with
        | .error e => .error e
        | .ok pr => .ok ⟨w, st, en, pr⟩

/-- Construction of one `TextSegment(...)` ORM object and its words
(lines 205–224), in source evaluation order. -/
def buildSegment (ts : TSDict) : Except PyError BuiltSegment :=
  match ts.fields.getItem "text" with
  | .error e => .error e
  | .ok text =>
    match ts.fields.getItem "start" with
    | .error e => .error e
    | .ok st =>
      match ts.fields.getItem "end" with
      | .error e => .error e
      | .ok en =>
        match ts.fields.getItem "no_speech_prob" with
        | .error e => .error e
        | .ok nsp =>
          match ts.fields.getItem "thumbnail" with
          | .error e => .error e
          | .ok th =>
            match ts.words? with
            | none => .error .keyError
            | some wds =>
              match wds.mapM buildWord with
              | .error e => .error e
              | .ok ws => .ok ⟨text, st, en, nsp, th, ws⟩

/-- The construction phase of `save_data` (lines 189–228): resolve-or-create
Video and Audio by checksum, then build the Transcription, TextSegment,
WordSegment and GPS objects.  Reads the database (through the dedup lookups)
but writes nothing. -/
def buildGraph (db : DB) (video_kwargs audio_kwargs transcription_kwargs : PyDict)
    (text_segments_dicts : List TSDict) (gps_kwargs : List PyDict) :
    Except PyError BuiltGraph :=
  match video_kwargs.getItem "checksum" with
  | .error e => .error e
  | .ok vck =>
    match get_video db none (some vck) with
    | .error e => .error e
    | .ok vrow =>
      let video := match vrow with
        | none => Resolved.created video_kwargs
        | some r => Resolved.found r
      match audio_kwargs.getItem "checksum" with
      | .error e => .error e
      | .ok ack =>
        match get_audio db none (some ack) with
        | .error e => .error e
        | .ok arow =>
          let audio := match arow with
            | none => Resolved.created audio_kwargs
            | some r => Resolved.found r
          match text_segments_dicts.mapM buildSegment with
          | .error e => .error e
          | .ok segs => .ok ⟨video, audio, transcription_kwargs, segs, gps_kwargs⟩

/-- The commit flush: the DBMS assigns sequential ids and inserts every staged
object — existing (found) Video/Audio rows are already persistent and are not
re-inserted — as one transaction. -/
def applyCommit (db : DB) (g : BuiltGraph) : DB :=
  let vid := match g.video with
    | .created _ => db.videos.length + 1
    | .found r => r.id
  let videos := match g.video with
    | .created attrs => db.videos ++ [⟨db.videos.length + 1, attrs⟩]
    | .found _ => db.videos
  let aid := match g.audio with
    | .created _ => db.audios.length + 1
    | .found r => r.id
  let audios := match g.audio with
    | .created attrs => db.audios ++ [⟨db.audios.length + 1, vid, attrs⟩]
    | .found _ => db.audios
  let tid := db.transcriptions.length + 1
  let segRows := g.segments.enum.map (fun p =>
    TextSegmentRow.mk (db.text_segments.length + p.1 + 1) tid
      p.2.segment p.2.start_time p.2.end_time p.2.no_speech_prob p.2.thumbnail)
  let flatWords := (g.segments.enum.map (fun p =>
    p.2.words.map (fun w => (db.text_segments.length + p.1 + 1, w)))).flatten
  let wordRows := flatWords.enum.map (fun q =>
    WordSegmentRow.mk (db.word_segments.length + q.1 + 1) q.2.1
      q.2.2.word q.2.2.start_time q.2.2.end_time q.2.2.probability)
  let gpsRows := g.gps.enum.map (fun p =>
    GpsRow.mk (db.gps.length + p.1 + 1) vid p.2)
  { videos := videos
    audios := audios
    transcriptions := db.transcriptions ++ [⟨tid, aid, g.transcription⟩]
    text_segments := db.text_segments ++ segRows
    word_segments := db.word_segments ++ wordRows
    gps := db.gps ++ gpsRows }

/-- `Repository.save_data` (lines 166–238): construct the entity graph, stage
it, commit once.  `commit_succeeds` models the external DBMS accepting the
transaction; on a refused commit the transaction is rolled back and the error
surfaces.  The result is the visible database together with the exception the
call raised, if any. -/
def save_data (db : DB) (commit_succeeds : Bool)
    (video_kwargs audio_kwargs transcription_kwargs : PyDict)
    (text_segments_dicts : List TSDict) (gps_kwargs : List PyDict) :
    DB × Option PyError :=
  match buildGraph db video_kwargs audio_kwargs transcription_kwargs
      text_segments_dicts gps_kwargs with
  | .error e => (db, some e)
  | .ok g =>
    if commit_succeeds then (applyCommit db g, none)
    else (db, some .databaseError)

/-- Python keyword binding for a call to `Repository.get_video`: the accepted
parameter names are `video_id` and `checksum`; any other keyword makes the call
itself raise `TypeError` before the body runs. -/
def call_get_video (db : DB) (kwargs : List (String × Val)) :
    Except PyError (Option VideoRow) :=
  if kwargs.any (fun kv => decide (kv.1 ≠ "video_id") && decide (kv.1 ≠ "checksum"))
  then .error .typeError
  else get_video db (kwargs.lookup "video_id") (kwargs.lookup "checksum")

/-- Python attribute access `row.name` on a reflected ORM row. -/
def VideoRow.getAttr (r : VideoRow) (name : String) : Except PyError Val :=
  match r.attrs.lookup name with
  | some v => .ok v
  | none => .error .attributeError

/-- `Repository.query_video_path_by_id` (lines 323–335).  The source calls
`self.get_video(id=video_id)` — with keyword `id`, which `get_video` does not
accept — then returns `val.filename` when a row came back and `""` otherwise. -/
def query_video_path_by_id (db : DB) (video_id : Int) : Except PyError Val :=
  match call_get_video db [("id", Val.i video_id)] with
  | .error e => .error e
  | .ok (some val) => val.getAttr "filename"
  | .ok none => .ok (Val.s "")

/-! ### Concrete data used by witnesses and counterexamples -/

/-- A well-formed video descriptor. -/
def vkA : PyDict := [("checksum", Val.s "vchk"), ("filename", Val.s "run1.mp4")]

/-- A well-formed audio descriptor. -/
def akA : PyDict := [("checksum", Val.s "achk"), ("filename", Val.s "run1.mp3")]

/-- A segment dict whose single word dict lacks the `"probability"` key, so
constructing its `WordSegment` raises `KeyError`. -/
def tsBadWord : TSDict :=
  ⟨[("text", Val.s "hi"), ("start", Val.i 0), ("end", Val.i 1),
    ("no_speech_prob", Val.i 0), ("thumbnail", Val.b [7])],
   some [[("word", Val.s "hi"), ("start", Val.i 0), ("end", Val.i 1)]]⟩

/-- A store holding exactly one video row whose id is `0`. -/
def dbZeroId : DB :=
  ⟨[⟨0, [("checksum", Val.s "abc"), ("filename", Val.s "v.mp4")]⟩],
   [], [], [], [], []⟩

/-- A store holding one video row with id `1` and a filename. -/
def dbPathQuery : DB :=
  ⟨[⟨1, [("checksum", Val.s "c1"), ("filename", Val.s "vid.mp4")]⟩],
   [], [], [], [], []⟩

/-- A two-row trackside-logger CSV with the expected header. -/
def csvSample : Csv :=
  ⟨["Time", "UTC Time", "Latitude", "Longitude", "Altitude (m)", "Speed (Km/h)"],
   [[0, 100, 41, 2, 3, 4], [1, 101, 42, 6, 7, 8]]⟩

/-- A GPS filesystem holding `csvSample` at `gps.csv`. -/
def csvFsSample : CsvFS := ⟨[("gps.csv", csvSample)]⟩

/-- A file filesystem holding a video and an already-extracted audio file. -/
def fileFsSample : FileFS := ⟨[("vid.mp4", [1, 2]), ("aud.mp3", [3, 4])]⟩

/-! ### Helper lemmas -/

theorem list_contains_iff {α : Type} [BEq α] [LawfulBEq α] (l : List α) (a : α) :
    l.contains a = true ↔ a ∈ l :=
  List.elem_iff

theorem punc_in_table (c : Char) (hc : c ∈ string_punctuation) (hne : c ≠ '\'') :
    remove_punc_table.contains c = true := by
  fin_cases hc <;> first | decide | exact absurd rfl hne

theorem ws_in_table (c : Char) (hc : c ∈ string_whitespace) :
    remove_punc_table.contains c = true := by
  fin_cases hc <;> decide

theorem table_sub_classes (c : Char) (hc : remove_punc_table.contains c = true) :
    c ∈ string_punctuation ∨ c ∈ string_whitespace := by
  rw [list_contains_iff] at hc
  fin_cases hc <;> decide

theorem getItem_ok_lookup {d : PyDict} {k : String} {v : Val}
    (h : d.getItem k = .ok v) : d.lookup k = some v := by
  unfold PyDict.getItem at h
  cases hl : d.lookup k with
  | none => rw [hl] at h; exact absurd h (by simp)
  | some w => rw [hl] at h; simp at h; rw [h]

theorem save_data_ok_decomp {db db' : DB} {vk ak tk : PyDict}
    {tsd : List TSDict} {gk : List PyDict}
    (h : save_data db true vk ak tk tsd gk = (db', none)) :
    ∃ g, buildGraph db vk ak tk tsd gk = .ok g ∧ db' = applyCommit db g := by
  unfold save_data at h
  cases hb : buildGraph db vk ak tk tsd gk with
  | error e => rw [hb] at h; simp at h
  | ok g =>
    rw [hb] at h
    simp at h
    exact ⟨g, rfl, h.symm⟩

theorem buildGraph_ok_decomp {db : DB} {vk ak tk : PyDict}
    {tsd : List TSDict} {gk : List PyDict} {g : BuiltGraph}
    (h : buildGraph db vk ak tk tsd gk = .ok g) :
    ∃ vck vrow ack arow segs,
      vk.getItem "checksum" = .ok vck
      ∧ get_video db none (some vck) = .ok vrow
      ∧ ak.getItem "checksum" = .ok ack
      ∧ get_audio db none (some ack) = .ok arow
      ∧ tsd.mapM buildSegment = .ok segs
      ∧ g = ⟨(match vrow with
              | none => Resolved.created vk
              | some r => Resolved.found r),
             (match arow with
              | none => Resolved.created ak
              | some r => Resolved.found r),
             tk, segs, gk⟩ := by
  unfold buildGraph at h
  cases h1 : vk.getItem "checksum" with
  | error e => rw [h1] at h; exact absurd h (by simp)
  | ok vck =>
    rw [h1] at h
    simp only [] at h
    cases h2 : get_video db none (some vck) with
    | error e => rw [h2] at h; exact absurd h (by simp)
    | ok vrow =>
      rw [h2] at h
      simp only [] at h
      cases h3 : ak.getItem "checksum" with
      | error e => rw [h3] at h; exact absurd h (by simp)
      | ok ack =>
        rw [h3] at h
        simp only [] at h
        cases h4 : get_audio db none (some ack) with
        | error e => rw [h4] at h; exact absurd h (by simp)
        | ok arow =>
          rw [h4] at h
          simp only [] at h
          cases h5 : tsd.mapM buildSegment with
          | error e => rw [h5] at h; exact absurd h (by simp)
          | ok segs =>
            rw [h5] at h
            simp at h
            exact ⟨vck, vrow, ack, arow, segs, rfl, h2, rfl, h4, rfl, h.symm⟩

theorem get_video_checksum_decomp {db : DB} {c : Val} {r : Option VideoRow}
    (h : get_video db none (some c) = .ok r) :
    one_or_none (db.videos.filter (videoMatches (RowQuery.byChecksum c))) =
      .ok r := by
  unfold get_video at h
  by_cases ht : c.truthy
  · simpa [optTruthy, ht] using h
  · simp [optTruthy, ht] at h

theorem get_audio_checksum_decomp {db : DB} {c : Val} {r : Option AudioRow}
    (h : get_audio db none (some c) = .ok r) :
    one_or_none (db.audios.filter (audioMatches (RowQuery.byChecksum c))) =
      .ok r := by
  unfold get_audio at h
  by_cases ht : c.truthy
  · simpa [optTruthy, ht] using h
  · simp [optTruthy, ht] at h

/-! ### Claim theorems -/

/-- C3: the word normalization deletes every punctuation character except the
apostrophe and every whitespace character, wherever it occurs, and keeps every
other character; in particular `" don't, "` normalizes to `"don't"`,
`" the!! "` to `"the"`, and a punctuation-only token to the empty string. -/
theorem word_normalization_spec :
    (∀ w c, c ∈ string_punctuation → c ≠ '\'' → c ∉ (normalize_word w).data)
    ∧ (∀ w c, c ∈ string_whitespace → c ∉ (normalize_word w).data)
    ∧ (∀ w c, c ∈ w.data → c ∉ string_punctuation → c ∉ string_whitespace →
        c ∈ (normalize_word w).data)
    ∧ (∀ w, '\'' ∈ w.data → '\'' ∈ (normalize_word w).data)
    ∧ normalize_word (String.mk [' ', 'd', 'o', 'n', '\'', 't', ',', ' ']) =
        String.mk ['d', 'o', 'n', '\'', 't']
    ∧ normalize_word (String.mk [' ', 't', 'h', 'e', '!', '!', ' ']) =
        String.mk ['t', 'h', 'e']
    ∧ normalize_word (String.mk ['!', '?', '.']) = String.mk [] := by
  refine ⟨?_, ?_, ?_, ?_, by decide, by decide, by decide⟩
  · intro w c hc hne hmem
    have h2 := (List.mem_filter.mp hmem).2
    rw [punc_in_table c hc hne] at h2
    simp at h2
  · intro w c hc hmem
    have h2 := (List.mem_filter.mp hmem).2
    rw [ws_in_table c hc] at h2
    simp at h2
  · intro w c hcw hp hw
    refine List.mem_filter.mpr ⟨hcw, ?_⟩
    cases hct : remove_punc_table.contains c with
    | true => exact absurd (table_sub_classes c hct) (by tauto)
    | false => simp
  · intro w hw
    refine List.mem_filter.mpr ⟨hw, by decide⟩

/-- C3 witness: the normalization properties applied at concrete characters
and words. -/
theorem word_normalization_spec_witness :
    '!' ∉ (normalize_word (String.mk ['a', '!'])).data
    ∧ ' ' ∉ (normalize_word (String.mk ['a', ' '])).data
    ∧ 'a' ∈ (normalize_word (String.mk ['a'])).data
    ∧ '\'' ∈ (normalize_word (String.mk ['a', '\''])).data :=
  ⟨word_normalization_spec.1 (String.mk ['a', '!']) '!' (by decide) (by decide),
   word_normalization_spec.2.1 (String.mk ['a', ' ']) ' ' (by decide),
   word_normalization_spec.2.2.1 (String.mk ['a']) 'a'
     (by decide) (by decide) (by decide),
   word_normalization_spec.2.2.2.1 (String.mk ['a', '\'']) (by decide)⟩

/-- C4 counterexample: constructing a `WhisperConfig` with model name `"huge"`
on an empty filesystem does raise, but only after the weight-cache directory
has been created: file I/O precedes the failure, refuting "fails before any
file I/O occurs". -/
theorem whisper_invalid_name_io_precedes_failure :
    (whisperConfig_post_init ⟨[]⟩ ⟨"huge", "whisper_cache", []⟩).2 =
      some PyError.valueError
    ∧ (whisperConfig_post_init ⟨[]⟩ ⟨"huge", "whisper_cache", []⟩).1 ≠ DirFS.mk []
    ∧ (whisperConfig_post_init ⟨[]⟩
        ⟨"huge", "whisper_cache", []⟩).1.pathExists "whisper_cache" = true := by
  decide

/-- C4 amended: constructing a transcription configuration whose model name is
not in the fixed valid set fails with `ValueError` (the spec's
`InvalidConfigError`), but only after the weight-cache directory creation:
`os.makedirs` runs before validation, so the directory exists even though
construction failed. -/
theorem whisper_invalid_name_fails_after_makedirs :
    ∀ fs cfg, cfg.model_name ∉ valid_model_names →
    (whisperConfig_post_init fs cfg).2 = some PyError.valueError
    ∧ ((whisperConfig_post_init fs cfg).1).pathExists cfg.download_location
        = true := by
  intro fs cfg h
  have hc : valid_model_names.contains cfg.model_name = false := by
    cases hx : valid_model_names.contains cfg.model_name with
    | false => rfl
    | true => exact absurd ((list_contains_iff _ _).mp hx) h
  unfold whisperConfig_post_init
  rw [hc]
  refine ⟨rfl, ?_⟩
  cases hp : fs.pathExists cfg.download_location with
  | true => simp [hp]
  | false =>
    simp [hp, DirFS.pathExists, DirFS.makedirs]

/-- C4 witness: the amended claim at a concrete invalid configuration. -/
theorem whisper_invalid_name_fails_after_makedirs_witness :
    (whisperConfig_post_init ⟨["other"]⟩ ⟨"huge", "weights", []⟩).2 =
      some PyError.valueError
    ∧ (whisperConfig_post_init
        ⟨["other"]⟩ ⟨"huge", "weights", []⟩).1.pathExists "weights" = true :=
  whisper_invalid_name_fails_after_makedirs ⟨["other"]⟩ ⟨"huge", "weights", []⟩
    (by decide)

/-- C6 counterexample: an ingestion-run configuration whose GPS source variant
no normalizer branch supports (`GOPRO`) is constructed without any error, and
the unsupported variant is only rejected when `parse_gps_file` runs — even
though the GPS file itself is present. -/
theorem end_to_end_config_no_variant_validation :
    (mkEndToEndConfig none VideoType.GOPRO 300).2 = none
    ∧ parse_gps_file ⟨[("gps.csv", ⟨["Time"], []⟩)]⟩ "gps.csv" VideoType.GOPRO =
        .error PyError.valueError := by
  decide

/-- C6 amended: `EndToEndConfig` construction performs no validation of the
GPS source variant and never raises; an unsupported variant tag is rejected
with `ValueError` (the spec's `UnsupportedVariantError`) only when
`parse_gps_file` runs. -/
theorem unsupported_variant_rejected_only_at_parse :
    ∀ tc svt tw, (mkEndToEndConfig tc svt tw).2 = none
    ∧ (svt ≠ VideoType.TRACK_ADDICT →
        ∀ fs p, parse_gps_file fs p svt = .error PyError.valueError) := by
  intro tc svt tw
  refine ⟨rfl, ?_⟩
  intro h fs p
  cases svt with
  | TRACK_ADDICT => exact absurd rfl h
  | GOPRO => rfl

/-- C6 witness: the amended claim at the `GOPRO` variant. -/
theorem unsupported_variant_rejected_only_at_parse_witness :
    (mkEndToEndConfig none VideoType.GOPRO 300).2 = none
    ∧ parse_gps_file csvFsSample "gps.csv" VideoType.GOPRO =
        .error PyError.valueError :=
  ⟨(unsupported_variant_rejected_only_at_parse none VideoType.GOPRO 300).1,
   (unsupported_variant_rejected_only_at_parse none VideoType.GOPRO 300).2
     (by decide) csvFsSample "gps.csv"⟩

/-- C7: when a file already exists at the audio destination and overwrite is
not requested, `extract_audio` does not invoke ffmpeg and leaves the
filesystem — in particular the destination file's contents — unchanged,
whatever bytes ffmpeg would have produced; when the video also exists the call
returns normally. -/
theorem extract_audio_skips_when_destination_exists :
    ∀ fs video_path audio_path ffmpeg_bytes,
    fs.pathExists audio_path = true →
    (extract_audio fs video_path audio_path false ffmpeg_bytes).ffmpeg_ran = false
    ∧ (extract_audio fs video_path audio_path false ffmpeg_bytes).fs = fs
    ∧ (fs.pathExists video_path = true →
        (extract_audio fs video_path audio_path false ffmpeg_bytes).err = none) := by
  intro fs video_path audio_path ffmpeg_bytes ha
  unfold extract_audio
  cases hv : fs.pathExists video_path with
  | false => simp [ha]
  | true => simp [ha]

/-- C7 witness: skipping at a concrete filesystem where both the video and the
destination audio file exist. -/
theorem extract_audio_skips_when_destination_exists_witness :
    (extract_audio fileFsSample "vid.mp4" "aud.mp3" false [9, 9]).ffmpeg_ran = false
    ∧ (extract_audio fileFsSample "vid.mp4" "aud.mp3" false [9, 9]).fs = fileFsSample
    ∧ (extract_audio fileFsSample "vid.mp4" "aud.mp3" false [9, 9]).err = none :=
  ⟨(extract_audio_skips_when_destination_exists fileFsSample "vid.mp4" "aud.mp3"
      [9, 9] (by decide)).1,
   (extract_audio_skips_when_destination_exists fileFsSample "vid.mp4" "aud.mp3"
      [9, 9] (by decide)).2.1,
   (extract_audio_skips_when_destination_exists fileFsSample "vid.mp4" "aud.mp3"
      [9, 9] (by decide)).2.2 (by decide)⟩

/-- C10: calling `get_video` with id `0` and no checksum passes the
exactly-one-selector guard (`0` is not `None`, so no `ValueError`), but both
truthiness-tested dispatch branches skip, leaving `stmt` unassigned: the call
raises `UnboundLocalError` on every store. -/
theorem get_video_zero_id_unbound_local :
    ∀ db : DB, get_video db (some (Val.i 0)) none =
      .error PyError.unboundLocalError := by
  intro db
  rfl

/-- C8: the code's lookup violates the exactly-one-selector contract: on a
store that contains a video row with id `0`, supplying exactly the id selector
`0` raises `UnboundLocalError` instead of returning the matching row — even
though exactly one matching row exists. -/
theorem get_video_lookup_contract_violated_at_zero :
    get_video dbZeroId (some (Val.i 0)) none = .error PyError.unboundLocalError
    ∧ (dbZeroId.videos.filter (videoMatches (RowQuery.byId (Val.i 0)))).length = 1
    ∧ get_audio dbZeroId none (some (Val.s "")) =
        .error PyError.unboundLocalError := by
  decide

/-- C9: `query_video_path_by_id` calls `get_video` with the keyword `id`,
which `get_video` does not accept, so the call raises `TypeError` for every
id — here on a store that does contain a video row with id `1` and a stored
filename, where the documented behavior is to return that filename. -/
theorem query_video_path_by_id_raises_type_error :
    query_video_path_by_id dbPathQuery 1 = .error PyError.typeError
    ∧ (dbPathQuery.videos.filter
        (videoMatches (RowQuery.byId (Val.i 1)))).length = 1 := by
  decide

/-- C1: `save_data` is atomic: whenever a run raises — during row construction
(`KeyError` on a payload dict, or an error out of the dedup lookups) or at the
commit itself — the visible store afterwards is exactly the store before the
call: no row from the attempt persists, and the original error surfaces. -/
theorem save_data_atomic :
    ∀ (db : DB) (commit_succeeds : Bool)
      (video_kwargs audio_kwargs transcription_kwargs : PyDict)
      (text_segments_dicts : List TSDict) (gps_kwargs : List PyDict)
      (e : PyError),
    (save_data db commit_succeeds video_kwargs audio_kwargs transcription_kwargs
      text_segments_dicts gps_kwargs).2 = some e →
    (save_data db commit_succeeds video_kwargs audio_kwargs transcription_kwargs
      text_segments_dicts gps_kwargs).1 = db := by
  intro db ok vk ak tk tsd gk e h
  unfold save_data at h ⊢
  cases hb : buildGraph db vk ak tk tsd gk with
  | error e2 => rfl
  | ok g =>
    rw [hb] at h
    cases ok with
    | false => rfl
    | true => simp at h

/-- C1 witness: a payload whose only word dict lacks the `"probability"` key:
construction of that `WordSegment` raises `KeyError` and the store stays
empty. -/
theorem save_data_atomic_witness :
    (save_data emptyDB true vkA akA [] [tsBadWord] []).2 = some PyError.keyError
    ∧ (save_data emptyDB true vkA akA [] [tsBadWord] []).1 = emptyDB :=
  ⟨by decide,
   save_data_atomic emptyDB true vkA akA [] [tsBadWord] [] PyError.keyError
     (by decide)⟩

/-- C2: starting from a fresh store, two successful `save_data` commits whose
video payloads share a content fingerprint and whose audio payloads share a
content fingerprint leave exactly one Video row and exactly one Audio row,
one Transcription row after the first commit and two after the second, every
Transcription row linked to the single resolved Audio row. -/
theorem save_data_dedup :
    ∀ (vk1 ak1 tk1 : PyDict) (ts1 : List TSDict) (gp1 : List PyDict)
      (vk2 ak2 tk2 : PyDict) (ts2 : List TSDict) (gp2 : List PyDict)
      (db1 db2 : DB),
    vk1.getItem "checksum" = vk2.getItem "checksum" →
    ak1.getItem "checksum" = ak2.getItem "checksum" →
    save_data emptyDB true vk1 ak1 tk1 ts1 gp1 = (db1, none) →
    save_data db1 true vk2 ak2 tk2 ts2 gp2 = (db2, none) →
    db1.videos.length = 1 ∧ db1.transcriptions.length = 1
    ∧ db2.videos.length = 1 ∧ db2.audios.length = 1
    ∧ db2.transcriptions.length = 2
    ∧ ∃ a, db2.audios = [a] ∧ ∀ t ∈ db2.transcriptions, t.audio_id = a.id := by
  intro vk1 ak1 tk1 ts1 gp1 vk2 ak2 tk2 ts2 gp2 db1 db2 hvck hack h1 h2
  obtain ⟨gA, hbA, hdbA⟩ := save_data_ok_decomp h1
  obtain ⟨vck1, vrow1, ack1, arow1, segsA, hv1, hgv1, ha1, hga1, hm1, hgA⟩ :=
    buildGraph_ok_decomp hbA
  have hv1' := get_video_checksum_decomp hgv1
  have ha1' := get_audio_checksum_decomp hga1
  simp [emptyDB, one_or_none] at hv1' ha1'
  subst hv1'
  subst ha1'
  simp only [] at hgA
  -- the first commit inserts the fresh Video, Audio and Transcription rows
  have hdb1 : db1.videos = [⟨1, vk1⟩] ∧ db1.audios = [⟨1, 1, ak1⟩]
      ∧ db1.transcriptions = [⟨1, 1, tk1⟩] := by
    subst hgA
    subst hdbA
    simp [applyCommit, emptyDB]
  obtain ⟨hdb1v, hdb1a, hdb1t⟩ := hdb1
  obtain ⟨gB, hbB, hdbB⟩ := save_data_ok_decomp h2
  obtain ⟨vck2, vrow2, ack2, arow2, segsB, hv2, hgv2, ha2, hga2, hm2, hgB⟩ :=
    buildGraph_ok_decomp hbB
  -- identical fingerprints: the second run resolves the same checksum values
  have hvck2 : vck2 = vck1 := by
    rw [hvck] at hv1
    rw [hv1] at hv2
    exact (Except.ok.inj hv2).symm
  have hack2 : ack2 = ack1 := by
    rw [hack] at ha1
    rw [ha1] at ha2
    exact (Except.ok.inj ha2).symm
  subst hvck2
  subst hack2
  -- the second run finds the committed rows by checksum
  have hv2' := get_video_checksum_decomp hgv2
  have ha2' := get_audio_checksum_decomp hga2
  rw [hdb1v] at hv2'
  rw [hdb1a] at ha2'
  have hvmatch : videoMatches (RowQuery.byChecksum vck2) ⟨1, vk1⟩ = true := by
    simp [videoMatches, getItem_ok_lookup hv1]
  have hamatch : audioMatches (RowQuery.byChecksum ack2) ⟨1, 1, ak1⟩ = true := by
    simp [audioMatches, getItem_ok_lookup ha1]
  rw [List.filter_cons_of_pos hvmatch] at hv2'
  rw [List.filter_cons_of_pos hamatch] at ha2'
  simp [one_or_none] at hv2' ha2'
  subst hv2'
  subst ha2'
  simp only [] at hgB
  subst hgB
  subst hdbB
  refine ⟨?_, ?_, ?_, ?_, ?_, ⟨1, 1, ak1⟩, ?_, ?_⟩
  · rw [hdb1v]; rfl
  · rw [hdb1t]; rfl
  · simp [applyCommit, hdb1v]
  · simp [applyCommit, hdb1a]
  · simp [applyCommit, hdb1t]
  · simp [applyCommit, hdb1a]
  · intro t ht
    simp [applyCommit, hdb1t] at ht
    rcases ht with h | h <;> rw [h]

/-- C2 witness: the store after one commit of the sample payload, and after a
second commit with the same fingerprints. -/
theorem save_data_dedup_witness :
    (save_data emptyDB true vkA akA [] [] []).1.videos.length = 1
    ∧ (save_data emptyDB true vkA akA [] [] []).1.transcriptions.length = 1
    ∧ (save_data (save_data emptyDB true vkA akA [] [] []).1 true
        vkA akA [] [] []).1.videos.length = 1
    ∧ (save_data (save_data emptyDB true vkA akA [] [] []).1 true
        vkA akA [] [] []).1.audios.length = 1
    ∧ (save_data (save_data emptyDB true vkA akA [] [] []).1 true
        vkA akA [] [] []).1.transcriptions.length = 2
    ∧ ∃ a, (save_data (save_data emptyDB true vkA akA [] [] []).1 true
        vkA akA [] [] []).1.audios = [a]
      ∧ ∀ t ∈ (save_data (save_data emptyDB true vkA akA [] [] []).1 true
          vkA akA [] [] []).1.transcriptions, t.audio_id = a.id :=
  save_data_dedup vkA akA [] [] [] vkA akA [] [] []
    (save_data emptyDB true vkA akA [] [] []).1
    (save_data (save_data emptyDB true vkA akA [] [] []).1 true
      vkA akA [] [] []).1
    rfl rfl (by decide) (by decide)

/-- C5: on a trackside-logger CSV whose columns are exactly
`Time, UTC Time, Latitude, Longitude, Altitude (m), Speed (Km/h)`, the GPS
normalizer succeeds and returns the columns under the canonical names
`relative_time, utc_time, latitude, longitude, altitude_m, speed_kmh`, the
first four requested as double precision and the last two as single
precision, each column carrying exactly the source column's values with the
source row count. -/
theorem gps_column_mapping :
    ∀ (fs : CsvFS) (path : String) (csv : Csv),
    fs.files.lookup path = some csv →
    csv.header = ["Time", "UTC Time", "Latitude", "Longitude",
                  "Altitude (m)", "Speed (Km/h)"] →
    ∃ df, parse_trackaddict_gps fs path = .ok df
      ∧ df.cols.map Column.name =
          ["relative_time", "utc_time", "latitude", "longitude",
           "altitude_m", "speed_kmh"]
      ∧ df.cols.map Column.dtype =
          [Dtype.float64, Dtype.float64, Dtype.float64, Dtype.float64,
           Dtype.float32, Dtype.float32]
      ∧ df.cols.map Column.values =
          [csv.rows.map (fun row => row.getD 0 0),
           csv.rows.map (fun row => row.getD 1 0),
           csv.rows.map (fun row => row.getD 2 0),
           csv.rows.map (fun row => row.getD 3 0),
           csv.rows.map (fun row => row.getD 4 0),
           csv.rows.map (fun row => row.getD 5 0)]
      ∧ ∀ c ∈ df.cols, c.values.length = csv.rows.length := by
  intro fs path csv hlook hhead
  obtain ⟨header, rows⟩ := csv
  simp only [] at hhead
  subst hhead
  have hp : parse_trackaddict_gps fs path = .ok (DataFrame.mk
      [Column.mk "relative_time" Dtype.float64 (rows.map (fun row => row.getD 0 0)),
       Column.mk "utc_time" Dtype.float64 (rows.map (fun row => row.getD 1 0)),
       Column.mk "latitude" Dtype.float64 (rows.map (fun row => row.getD 2 0)),
       Column.mk "longitude" Dtype.float64 (rows.map (fun row => row.getD 3 0)),
       Column.mk "altitude_m" Dtype.float32 (rows.map (fun row => row.getD 4 0)),
       Column.mk "speed_kmh" Dtype.float32 (rows.map (fun row => row.getD 5 0))]) := by
    unfold parse_trackaddict_gps
    rw [hlook]
    rfl
  refine ⟨_, hp, rfl, rfl, rfl, ?_⟩
  intro c hc
  simp only [List.mem_cons, List.not_mem_nil, or_false] at hc
  rcases hc with h | h | h | h | h | h <;> rw [h] <;> simp

/-- C5 witness: the column mapping on a concrete two-row TrackAddict CSV. -/
theorem gps_column_mapping_witness :
    ∃ df, parse_trackaddict_gps csvFsSample "gps.csv" = .ok df
      ∧ df.cols.map Column.name =
          ["relative_time", "utc_time", "latitude", "longitude",
           "altitude_m", "speed_kmh"]
      ∧ df.cols.map Column.dtype =
          [Dtype.float64, Dtype.float64, Dtype.float64, Dtype.float64,
           Dtype.float32, Dtype.float32]
      ∧ df.cols.map Column.values =
          [csvSample.rows.map (fun row => row.getD 0 0),
           csvSample.rows.map (fun row => row.getD 1 0),
           csvSample.rows.map (fun row => row.getD 2 0),
           csvSample.rows.map (fun row => row.getD 3 0),
           csvSample.rows.map (fun row => row.getD 4 0),
           csvSample.rows.map (fun row => row.getD 5 0)]
      ∧ ∀ c ∈ df.cols, c.values.length = csvSample.rows.length :=
  gps_column_mapping csvFsSample "gps.csv" csvSample rfl rfl

end NistAI
